import Mathlib

/-!
Verification of the temporenc codec (`src/temporenc/temporenc.py`).

The codec is embedded shallowly: `packb` and `unpackb` are translated
from the source, byte strings become `List Nat` (big-endian, as produced
by Python's `struct` packing helpers), Python `None` becomes `Option`,
and raised exceptions become `Option`/`Except` failures.  The repository
ships a stream-decoding entry point `unpack` that its tests call but
whose code is not among the source files; it is modelled from the spec
(§4.4 and §4.6) below, clearly marked.
-/

namespace Temporenc

/-! Field component constants (source lines 37-50).  Minima and maxima
are `Int` because the Python encoder compares arbitrary integers against
them; sentinels ("empty") and masks live on the wire and are `Nat`. -/

def YEAR_MIN : Int := 0

def YEAR_MAX : Int := 4094

def YEAR_EMPTY : Nat := 4095

def YEAR_MASK : Nat := 0xfff

def MONTH_MIN : Int := 0

def MONTH_MAX : Int := 11

def MONTH_EMPTY : Nat := 15

def MONTH_MASK : Nat := 0xf

def DAY_MIN : Int := 0

def DAY_MAX : Int := 30

def DAY_EMPTY : Nat := 31

def DAY_MASK : Nat := 0x1f

def HOUR_MIN : Int := 0

def HOUR_MAX : Int := 23

def HOUR_EMPTY : Nat := 31

def HOUR_MASK : Nat := 0x1f

def MINUTE_MIN : Int := 0

def MINUTE_MAX : Int := 59

def MINUTE_EMPTY : Nat := 63

def MINUTE_MASK : Nat := 0x3f

def SECOND_MIN : Int := 0

def SECOND_MAX : Int := 60

def SECOND_EMPTY : Nat := 63

def SECOND_MASK : Nat := 0x3f

def MILLISECOND_MIN : Int := 0

def MILLISECOND_MAX : Int := 999

def MILLISECOND_MASK : Nat := 0x3ff

def MICROSECOND_MIN : Int := 0

def MICROSECOND_MAX : Int := 999999

def MICROSECOND_MASK : Nat := 0xfffff

def NANOSECOND_MIN : Int := 0

def NANOSECOND_MAX : Int := 999999999

def NANOSECOND_MASK : Nat := 0x3fffffff

def SUPPORTED_TYPES : List String := ["D", "T", "DT", "DTZ", "DTS", "DTSZ"]

def D_MASK : Nat := 0x1fffff

def T_MASK : Nat := 0x1ffff

/-- The decoded record returned by `unpackb` (the `Value` namedtuple,
source lines 57-61).  Every field is optional; `tz_offset` is a signed
minute count in the Python API, hence `Option Int`. -/
structure Value where
  year : Option Nat
  month : Option Nat
  day : Option Nat
  hour : Option Nat
  minute : Option Nat
  second : Option Nat
  millisecond : Option Nat
  microsecond : Option Nat
  nanosecond : Option Nat
  tz_hour : Option Nat
  tz_minute : Option Nat
  tz_offset : Option Int
deriving DecidableEq

/-- Big-endian serialization of `n` to exactly `k` bytes, i.e. Python's
`struct.pack('>L')` / `struct.pack('>Q')` restricted to the low `k`
bytes (all packed values in the source fit their declared width). -/
def bytesBE : Nat → Nat → List Nat
  | 0, _ => []
  | k + 1, n => bytesBE k (n / 256) ++ [n % 256]

/-- Big-endian integer of a byte string, i.e. the source's `unpack_4` /
`unpack_8` helpers (lines 19-24); left-padding with zero bytes does not
change the value, so one fold covers both. -/
def fromBytesBE (bs : List Nat) : Nat :=
  bs.foldl (fun acc b => acc * 256 + b) 0

/-- Type detection of `packb` when no explicit type is given (source
lines 80-96). -/
def detectType
    (year month day hour minute second
     millisecond microsecond nanosecond : Option Int) : String :=
  let has_d := !(year.isNone && month.isNone && day.isNone)
  let has_t := !(hour.isNone && minute.isNone && second.isNone)
  let has_s := !(millisecond.isNone && microsecond.isNone && nanosecond.isNone)
  if has_s then "DTS"
  else if has_d && has_t then "DT"
  else if has_d then "D"
  else if has_t then "T"
  else "D"

/-- One value-checking block of `packb` (source lines 105-137): an
absent field becomes its sentinel, a supplied field is range-checked;
out of range raises `ValueError`, modelled as `none`. -/
def checkValue (v : Option Int) (lo hi : Int) (empty : Nat) : Option Nat :=
  match v with
  | none => some empty
  | some x => if lo ≤ x ∧ x ≤ hi then some x.toNat else none

/-- The month/day variant of the value-checking block (source lines
110-122): the supplied 1-based value is decremented before the range
check, and the decremented value is what reaches the wire. -/
def checkValueAdjusted (v : Option Int) (lo hi : Int) (empty : Nat) : Option Nat :=
  match v with
  | none => some empty
  | some x => if lo ≤ x - 1 ∧ x - 1 ≤ hi then some (x - 1).toNat else none

/-- The sub-second value checks of `packb` (source lines 139-149): no
sentinel substitution, only a range check on a supplied value. -/
def checkSubSecond (v : Option Int) (lo hi : Int) : Option (Option Nat) :=
  match v with
  | none => some none
  | some x => if lo ≤ x ∧ x ≤ hi then some (some x.toNat) else none

/-- Value checking and byte packing of `packb` for an already resolved
type name (source lines 105-194).  `raise NotImplementedError()` at the
end (reached for the DTZ and DTSZ type names) is modelled as `none`. -/
def packValues (type : String)
    (year month day hour minute second
     millisecond microsecond nanosecond : Option Int) : Option (List Nat) := do
  let year ← checkValue year YEAR_MIN YEAR_MAX YEAR_EMPTY
  let month ← checkValueAdjusted month MONTH_MIN MONTH_MAX MONTH_EMPTY
  let day ← checkValueAdjusted day DAY_MIN DAY_MAX DAY_EMPTY
  let hour ← checkValue hour HOUR_MIN HOUR_MAX HOUR_EMPTY
  let minute ← checkValue minute MINUTE_MIN MINUTE_MAX MINUTE_EMPTY
  let second ← checkValue second SECOND_MIN SECOND_MAX SECOND_EMPTY
  let millisecond ← checkSubSecond millisecond MILLISECOND_MIN MILLISECOND_MAX
  let microsecond ← checkSubSecond microsecond MICROSECOND_MIN MICROSECOND_MAX
  let nanosecond ← checkSubSecond nanosecond NANOSECOND_MIN NANOSECOND_MAX
  let d := year <<< 9 ||| month <<< 5 ||| day
  let t := hour <<< 12 ||| minute <<< 6 ||| second
  if type = "D" then
    pure ((bytesBE 4 (0x800000 ||| d)).drop 1)
  else if type = "T" then
    pure ((bytesBE 4 (0xa00000 ||| t)).drop 1)
  else if type = "DT" then
    pure ((bytesBE 8 (d <<< 17 ||| t)).drop 3)
  else if type = "DTS" then
    match nanosecond with
    | some ns =>
        pure ((bytesBE 2 (0b0110 <<< 4 ||| d >>> 17) ++
               bytesBE 8 ((d &&& 0x1ffff) <<< 47 ||| t <<< 30 ||| ns)).drop 1)
    | none =>
      match microsecond with
      | some us =>
          pure (bytesBE 8 (0b0101 <<< 60 ||| d <<< 39 ||| t <<< 22 ||| us <<< 2))
      | none =>
        match millisecond with
        | some ms =>
            pure ((bytesBE 8 (0b0100 <<< 52 ||| d <<< 31 ||| t <<< 14 ||| ms <<< 4)).drop 1)
        | none =>
            pure ((bytesBE 8 (0b0111 <<< 44 ||| d <<< 23 ||| t <<< 6)).drop 2)
  else
    none

/-- The encoder `packb` (source lines 64-194): resolve the type (detect
it when absent, validate it when explicit; an unsupported explicit name
raises `ValueError`, modelled as `none`), then check values and pack
bytes. -/
def packb (type? : Option String)
    (year month day hour minute second
     millisecond microsecond nanosecond : Option Int) : Option (List Nat) := do
  let type ← match type? with
    | none =>
        pure (detectType year month day hour minute second
               millisecond microsecond nanosecond)
    | some t => if t ∈ SUPPORTED_TYPES then pure t else none
  packValues type year month day hour minute second
    millisecond microsecond nanosecond

/-- Failure modes of decoding: the length `ValueError`s, the invalid-tag
`ValueError`, the `NotImplementedError` of the DTZ/DTSZ tags, and the
short read of the stream reader. -/
inductive Err where
  | invalidLength
  | invalidTag
  | notImplemented
  | shortRead
deriving DecidableEq

/-- Tail of `unpackb` (source lines 289-322): split the D and T
components into fields (adding 1 back to month and day), derive the two
missing sub-second precisions from the stored one, and leave all three
timezone fields unset. -/
def assembleValue (d t millisecond microsecond nanosecond : Option Nat) : Value :=
  let (year, month, day) :=
    match d with
    | none => (none, none, none)
    | some dv =>
        (some (dv >>> 9 &&& YEAR_MASK),
         some ((dv >>> 5 &&& MONTH_MASK) + 1),
         some ((dv &&& DAY_MASK) + 1))
  let (hour, minute, second) :=
    match t with
    | none => (none, none, none)
    | some tv =>
        (some (tv >>> 12 &&& HOUR_MASK),
         some (tv >>> 6 &&& MINUTE_MASK),
         some (tv &&& SECOND_MASK))
  let (ms, us, ns) :=
    match millisecond, microsecond, nanosecond with
    | some m, _, _ => (some m, some (m * 1000), some (m * 1000 * 1000))
    | none, some u, _ => (some (u / 1000), some u, some (u * 1000))
    | none, none, some n => (some (n / 1000 / 1000), some (n / 1000), some n)
    | none, none, none => (none, none, none)
  ⟨year, month, day, hour, minute, second, ms, us, ns, none, none, none⟩

/-- The whole-buffer decoder `unpackb` (source lines 197-322).  Raised
`ValueError`s about length become `Err.invalidLength`, the invalid-tag
`ValueError` becomes `Err.invalidTag`, and the `NotImplementedError` of
the DTZ (tag `110`) and DTSZ (tag `111`) branches becomes
`Err.notImplemented`. -/
def unpackb (value : List Nat) : Except Err Value :=
  if 3 ≤ value.length ∧ value.length ≤ 10 then
    let first := value.headD 0
    if first ≤ 0b00111111 then
      -- Type DT, tag 00
      if value.length = 5 then
        let n := fromBytesBE value
        .ok (assembleValue (some (n >>> 17 &&& D_MASK)) (some (n &&& T_MASK))
              none none none)
      else .error .invalidLength
    else if first ≤ 0b01111111 then
      -- Type DTS, tag 01
      let precision := first >>> 4 &&& 0x03
      let expectedLength := if precision = 3 then 6 else 7 + precision
      if value.length = expectedLength then
        let n := fromBytesBE (value.take 6) >>> 6
        let d := some (n >>> 23 &&& D_MASK)
        let t := some (n >>> 6 &&& T_MASK)
        let m := fromBytesBE (value.drop (value.length - 4))
        if precision = 0 then
          .ok (assembleValue d t (some (m >>> 4 &&& MILLISECOND_MASK)) none none)
        else if precision = 1 then
          .ok (assembleValue d t none (some (m >>> 2 &&& MICROSECOND_MASK)) none)
        else if precision = 2 then
          .ok (assembleValue d t none none (some (m &&& NANOSECOND_MASK)))
        else
          .ok (assembleValue d t none none none)
      else .error .invalidLength
    else if first ≤ 0b10011111 then
      -- Type D, tag 100
      if value.length = 3 then
        .ok (assembleValue (some (fromBytesBE value &&& D_MASK)) none none none none)
      else .error .invalidLength
    else if first ≤ 0b10100001 then
      -- Type T, tag 1010000
      if value.length = 3 then
        .ok (assembleValue none (some (fromBytesBE value &&& T_MASK)) none none none)
      else .error .invalidLength
    else if first ≤ 0b10111111 then
      .error .invalidTag
    else if first ≤ 0b11011111 then
      -- tag 110: NotImplementedError("DTZ")
      .error .notImplemented
    else
      -- tag 111: NotImplementedError("DTSZ")
      .error .notImplemented
  else .error .invalidLength

/-- Modelled from the spec: the repository's tag dispatcher as a
standalone table is not among the source files (only its inlined length
checks inside `unpackb` are), so this follows the prefix table of §4.4
of the spec, mapping a first byte to the total byte length of the value
it starts, or `none` for the reserved tag space. -/
def tagLength (first : Nat) : Option Nat :=
  if first ≤ 0b00111111 then some 5
  else if first ≤ 0b01001111 then some 7
  else if first ≤ 0b01011111 then some 8
  else if first ≤ 0b01101111 then some 9
  else if first ≤ 0b01111111 then some 6
  else if first ≤ 0b10011111 then some 3
  else if first ≤ 0b10100001 then some 3
  else if first ≤ 0b10111111 then none
  else if first ≤ 0b11011111 then some 6
  else if first ≤ 0b11100111 then some 7
  else if first ≤ 0b11101111 then some 8
  else if first ≤ 0b11110111 then some 9
  else some 10

/-- Modelled from the spec: the repository's stream-decoding function
`unpack` (called by its tests) is not among the source files, so this
follows §4.6 of the spec: read one byte, consult the tag dispatcher for
the total length, read exactly the remaining bytes (an exhausted source
is a short read, never a partial decode), decode, and return the value
together with the cursor placed just past the consumed bytes.  The byte
source is a list with a cursor position. -/
def unpack (data : List Nat) (pos : Nat) : Except Err (Value × Nat) :=
  let rest := data.drop pos
  match rest with
  | [] => .error .shortRead
  | first :: _ =>
    match tagLength first with
    | none => .error .invalidTag
    | some total =>
      if rest.length < total then .error .shortRead
      else
        match unpackb (rest.take total) with
        | .ok v => .ok (v, pos + total)
        | .error e => .error e

/-- The variant-selection rule as §4.1 of the spec words it, with the
timezone field as an explicit parameter, for comparison against the
source's `detectType`. -/
def specInferredType
    (year month day hour minute second
     millisecond microsecond nanosecond tz_offset : Option Int) : String :=
  let has_sub := millisecond.isSome || microsecond.isSome || nanosecond.isSome
  let has_date := year.isSome || month.isSome || day.isSome
  let has_time := hour.isSome || minute.isSome || second.isSome
  let has_tz := tz_offset.isSome
  if has_sub then (if has_tz then "DTSZ" else "DTS")
  else if has_date && has_time then (if has_tz then "DTZ" else "DT")
  else if has_date then "D"
  else if has_time then "T"
  else "D"

/-! Theorems about the embedded codec. -/

/-- C1: the round-trip claim fails on the code.  Encoding the DTS
millisecond test vector and decoding it returns year 286, month 16,
day 25, hour 7, minute 18, second 25 instead of the supplied
1983-01-15 18:25:12 (the DTS decode branch shifts the first six bytes
right by 6 before applying the d/t bit offsets), and a DTS value with
every field absent decodes to the sentinel-derived numbers instead of
absent fields (no decode path compares a field to its sentinel). -/
theorem C1_roundtrip_violated :
    packb (some "DTS") (some 1983) (some 1) (some 15) (some 18) (some 25) (some 12)
        (some 123) none none = some [0x47, 0xbf, 0x07, 0x49, 0x93, 0x07, 0xb0]
  ∧ unpackb [0x47, 0xbf, 0x07, 0x49, 0x93, 0x07, 0xb0] =
      .ok ⟨some 286, some 16, some 25, some 7, some 18, some 25,
           some 123, some 123000, some 123000000, none, none, none⟩
  ∧ packb (some "DTS") none none none none none none none none none =
      some [0x7f, 0xff, 0xff, 0xff, 0xff, 0xc0]
  ∧ unpackb [0x7f, 0xff, 0xff, 0xff, 0xff, 0xc0] =
      .ok ⟨some 511, some 16, some 32, some 31, some 63, some 63,
           none, none, none, none, none, none⟩ :=
  ⟨rfl, rfl, rfl, rfl⟩

/-- C2: the codec does not support the timezone variants.  Decoding the
DTZ test vector of the repository's own test suite fails with the
not-implemented error, and `packb` (which has no timezone parameter at
all) fails on an explicit DTZ or DTSZ type name. -/
theorem C2_timezone_unimplemented :
    unpackb [0xcf, 0x7e, 0x0e, 0x8b, 0x26, 0x44] = .error .notImplemented
  ∧ packb (some "DTZ") (some 1983) (some 1) (some 15) (some 17) (some 25) (some 12)
      none none none = none
  ∧ packb (some "DTSZ") none none none none none none (some 123) none none = none :=
  ⟨rfl, rfl, rfl⟩

/-- C4: the concrete vectors hold.  Encoding D year=1983 month=1 day=15
gives `8f 7e 0e`, which decodes back to exactly those fields with every
other field absent; encoding DTS with those date fields, 18:25:12 and
millisecond=123 gives `47 bf 07 49 93 07 b0`, whose decoding carries
millisecond 123, microsecond 123000 and nanosecond 123000000. -/
theorem C4_concrete_vectors :
    packb (some "D") (some 1983) (some 1) (some 15) none none none none none none =
      some [0x8f, 0x7e, 0x0e]
  ∧ unpackb [0x8f, 0x7e, 0x0e] =
      .ok ⟨some 1983, some 1, some 15, none, none, none,
           none, none, none, none, none, none⟩
  ∧ packb (some "DTS") (some 1983) (some 1) (some 15) (some 18) (some 25) (some 12)
        (some 123) none none = some [0x47, 0xbf, 0x07, 0x49, 0x93, 0x07, 0xb0]
  ∧ Except.map Value.millisecond (unpackb [0x47, 0xbf, 0x07, 0x49, 0x93, 0x07, 0xb0]) =
      .ok (some 123)
  ∧ Except.map Value.microsecond (unpackb [0x47, 0xbf, 0x07, 0x49, 0x93, 0x07, 0xb0]) =
      .ok (some 123000)
  ∧ Except.map Value.nanosecond (unpackb [0x47, 0xbf, 0x07, 0x49, 0x93, 0x07, 0xb0]) =
      .ok (some 123000000) :=
  ⟨rfl, rfl, rfl, rfl, rfl, rfl⟩

/-- C6, counterexample: for the DTSZ variant the claim fails, because
the encoder cannot produce DTSZ at all: supplying sub-second fields
(here both millisecond and nanosecond, each in range, with every other
field valid) to an explicit DTSZ encode is an error, and nothing is
physically encoded. -/
theorem C6_counterexample_dtsz_encode_fails :
    packb (some "DTSZ") (some 1983) (some 1) (some 15) (some 17) (some 25) (some 12)
      (some 123) none (some 123456789) = none :=
  rfl

/-- C7, counterexample: a buffer whose first byte carries the DTZ tag
(`110`, length 6 implied) and whose length is 3 does not fail with the
length error the claim requires, but with the not-implemented error. -/
theorem C7_counterexample_dtz_not_length_error :
    unpackb [0xc0, 0x00, 0x00] = .error .notImplemented
  ∧ Err.notImplemented ≠ Err.invalidLength :=
  ⟨rfl, by decide⟩

/-- C8: sentinel disjointness.  A supplied field value that passes the
encoder's range check (after the 1-based-to-0-based adjustment for
month and day) is never mapped to the field's sentinel: the checked
wire value of a present field differs from the `EMPTY` constant that
encodes absence. -/
theorem C8_sentinel_disjoint :
    (∀ v : Int, ∀ w : Nat,
      checkValue (some v) YEAR_MIN YEAR_MAX YEAR_EMPTY = some w → w ≠ YEAR_EMPTY)
  ∧ (∀ v : Int, ∀ w : Nat,
      checkValueAdjusted (some v) MONTH_MIN MONTH_MAX MONTH_EMPTY = some w → w ≠ MONTH_EMPTY)
  ∧ (∀ v : Int, ∀ w : Nat,
      checkValueAdjusted (some v) DAY_MIN DAY_MAX DAY_EMPTY = some w → w ≠ DAY_EMPTY)
  ∧ (∀ v : Int, ∀ w : Nat,
      checkValue (some v) HOUR_MIN HOUR_MAX HOUR_EMPTY = some w → w ≠ HOUR_EMPTY)
  ∧ (∀ v : Int, ∀ w : Nat,
      checkValue (some v) MINUTE_MIN MINUTE_MAX MINUTE_EMPTY = some w → w ≠ MINUTE_EMPTY)
  ∧ (∀ v : Int, ∀ w : Nat,
      checkValue (some v) SECOND_MIN SECOND_MAX SECOND_EMPTY = some w → w ≠ SECOND_EMPTY) := by
  refine ⟨?_, ?_, ?_, ?_, ?_, ?_⟩ <;>
  · intro v w h
    simp only [checkValue, checkValueAdjusted,
      YEAR_MIN, YEAR_MAX, YEAR_EMPTY, MONTH_MIN, MONTH_MAX, MONTH_EMPTY,
      DAY_MIN, DAY_MAX, DAY_EMPTY, HOUR_MIN, HOUR_MAX, HOUR_EMPTY,
      MINUTE_MIN, MINUTE_MAX, MINUTE_EMPTY,
      SECOND_MIN, SECOND_MAX, SECOND_EMPTY] at h ⊢
    split_ifs at h with hc
    injection h with h
    omega

/-- Helper: `packb` applied to an explicit T type with only the second
field supplied reduces to the second field's range check followed by
the fixed T byte layout. -/
theorem packb_T_only_second (s : Int) :
    packb (some "T") none none none none none (some s) none none none =
      (checkValue (some s) SECOND_MIN SECOND_MAX SECOND_EMPTY).bind fun second =>
        some ((bytesBE 4 (0xa00000 |||
          (HOUR_EMPTY <<< 12 ||| MINUTE_EMPTY <<< 6 ||| second))).drop 1) :=
  rfl

/-- C9: every `Value` the whole-buffer decoder returns has all three
timezone fields absent; no decode path populates them. -/
theorem C9_decoder_never_populates_timezone (value : List Nat) (v : Value)
    (h : unpackb value = .ok v) :
    v.tz_hour = none ∧ v.tz_minute = none ∧ v.tz_offset = none := by
  simp only [unpackb] at h
  split_ifs at h <;>
    first
      | exact Except.noConfusion h
      | (injection h with h; subst h; exact ⟨rfl, rfl, rfl⟩)

/-- C9, witness: the decoder applied to the D test vector, whose result
indeed carries no timezone fields. -/
theorem C9_decoder_never_populates_timezone_witness :
    (⟨some 1983, some 1, some 15, none, none, none,
      none, none, none, none, none, none⟩ : Value).tz_hour = none
  ∧ (⟨some 1983, some 1, some 15, none, none, none,
      none, none, none, none, none, none⟩ : Value).tz_minute = none
  ∧ (⟨some 1983, some 1, some 15, none, none, none,
      none, none, none, none, none, none⟩ : Value).tz_offset = none :=
  C9_decoder_never_populates_timezone [0x8f, 0x7e, 0x0e]
    ⟨some 1983, some 1, some 15, none, none, none,
     none, none, none, none, none, none⟩ rfl

/-- C10: the encoder accepts second values from 0 to 60 inclusive (and
nothing else), the leap second 60 is stored as wire value 60, distinct
from the second sentinel 63, and decoding the encoding returns
second=60. -/
theorem C10_leap_second :
    (∀ s : Int,
      (packb (some "T") none none none none none (some s) none none none).isSome
        ↔ SECOND_MIN ≤ s ∧ s ≤ SECOND_MAX)
  ∧ packb (some "T") none none none none none (some 60) none none none =
      some [0xa1, 0xff, 0xfc]
  ∧ fromBytesBE [0xa1, 0xff, 0xfc] &&& SECOND_MASK = 60
  ∧ (60 : Nat) ≠ SECOND_EMPTY
  ∧ Except.map Value.second (unpackb [0xa1, 0xff, 0xfc]) = .ok (some 60) := by
  refine ⟨?_, rfl, rfl, by decide, rfl⟩
  intro s
  rw [packb_T_only_second]
  by_cases hs : SECOND_MIN ≤ s ∧ s ≤ SECOND_MAX
  · simp [checkValue, hs]
  · simp [checkValue, hs]

/-- Helper: the not-all-absent test of the source's type detection is
the same as some-field-present. -/
theorem not_all_isNone (a b c : Option Int) :
    (!(a.isNone && b.isNone && c.isNone)) = (a.isSome || b.isSome || c.isSome) := by
  cases a <;> cases b <;> cases c <;> rfl

/-- Helper: with no timezone field supplied, the source's type
detection agrees with the selection chain of §4.1 of the spec. -/
theorem detectType_eq_specInferredType
    (year month day hour minute second ms us ns : Option Int) :
    detectType year month day hour minute second ms us ns =
      specInferredType year month day hour minute second ms us ns none := by
  simp only [detectType, specInferredType, not_all_isNone, Option.isSome_none,
    Bool.false_eq_true, if_false]

/-- Helper: the detected type name is always one of the supported type
names. -/
theorem detectType_mem_SUPPORTED_TYPES
    (year month day hour minute second ms us ns : Option Int) :
    detectType year month day hour minute second ms us ns ∈ SUPPORTED_TYPES := by
  simp only [detectType]
  split_ifs <;> decide

/-- C5: when `packb` is called without an explicit type, the variant it
encodes is the one the spec's selection chain infers from the supplied
fields (with no timezone field, since the encoder accepts none): any
sub-second field present gives DTS, else date and time fields give DT,
else a date field gives D, else a time field gives T, else D. -/
theorem C5_variant_inference
    (year month day hour minute second ms us ns : Option Int) :
    packb none year month day hour minute second ms us ns =
      packb (some (specInferredType year month day hour minute second ms us ns none))
        year month day hour minute second ms us ns := by
  have hd := detectType_eq_specInferredType year month day hour minute second ms us ns
  have hm := detectType_mem_SUPPORTED_TYPES year month day hour minute second ms us ns
  simp only [packb, ← hd, if_pos hm]

/-- Helper: `packb` with an explicit DTS type is the value-checking and
packing pass for DTS. -/
theorem packb_DTS (year month day hour minute second ms us ns : Option Int) :
    packb (some "DTS") year month day hour minute second ms us ns =
      packValues "DTS" year month day hour minute second ms us ns :=
  rfl

/-- Helper: binding the same option against pointwise equal
continuations gives equal results. -/
theorem opt_bind_congr {α β : Type} {o : Option α} {f g : α → Option β}
    (h : ∀ a, f a = g a) : o >>= f = o >>= g := by
  cases o with
  | none => rfl
  | some a => exact h a

/-- Helper: binding a present option just applies the continuation. -/
theorem opt_some_bind {α β : Type} (a : α) (f : α → Option β) :
    (some a >>= f) = f a :=
  rfl

/-- C6, amended: for the DTS variant, when several sub-second fields
are supplied (each passing its range check), the most precise one wins:
with a nanosecond present, any millisecond and microsecond are ignored;
with a microsecond and no nanosecond, any millisecond is ignored; and
the call errors exactly when the same call without the extra fields
errors (so supplying several sub-second fields is not itself an
error). -/
theorem C6_dts_precision_priority
    (year month day hour minute second : Option Int) (ms us : Option Int) (n u : Int)
    (hms : (checkSubSecond ms MILLISECOND_MIN MILLISECOND_MAX).isSome = true)
    (hus : (checkSubSecond us MICROSECOND_MIN MICROSECOND_MAX).isSome = true) :
    (packb (some "DTS") year month day hour minute second ms us (some n) =
       packb (some "DTS") year month day hour minute second none none (some n))
  ∧ (packb (some "DTS") year month day hour minute second ms (some u) none =
       packb (some "DTS") year month day hour minute second none (some u) none) := by
  obtain ⟨mo, hmo⟩ := Option.isSome_iff_exists.mp hms
  obtain ⟨uo, huo⟩ := Option.isSome_iff_exists.mp hus
  constructor
  · rw [packb_DTS, packb_DTS]
    simp only [packValues]
    refine opt_bind_congr fun yv => ?_
    refine opt_bind_congr fun mov => ?_
    refine opt_bind_congr fun dv => ?_
    refine opt_bind_congr fun hv => ?_
    refine opt_bind_congr fun miv => ?_
    refine opt_bind_congr fun sv => ?_
    rw [hmo, show checkSubSecond none MILLISECOND_MIN MILLISECOND_MAX = some none from rfl,
      opt_some_bind, opt_some_bind, huo,
      show checkSubSecond none MICROSECOND_MIN MICROSECOND_MAX = some none from rfl,
      opt_some_bind, opt_some_bind]
    have hnv : checkSubSecond (some n) NANOSECOND_MIN NANOSECOND_MAX =
        if NANOSECOND_MIN ≤ n ∧ n ≤ NANOSECOND_MAX then some (some n.toNat) else none :=
      rfl
    by_cases hn : NANOSECOND_MIN ≤ n ∧ n ≤ NANOSECOND_MAX
    · rw [hnv, if_pos hn, opt_some_bind, opt_some_bind]
    · rw [hnv, if_neg hn]
      rfl
  · rw [packb_DTS, packb_DTS]
    simp only [packValues]
    refine opt_bind_congr fun yv => ?_
    refine opt_bind_congr fun mov => ?_
    refine opt_bind_congr fun dv => ?_
    refine opt_bind_congr fun hv => ?_
    refine opt_bind_congr fun miv => ?_
    refine opt_bind_congr fun sv => ?_
    rw [hmo, show checkSubSecond none MILLISECOND_MIN MILLISECOND_MAX = some none from rfl,
      opt_some_bind, opt_some_bind]
    have huv : checkSubSecond (some u) MICROSECOND_MIN MICROSECOND_MAX =
        if MICROSECOND_MIN ≤ u ∧ u ≤ MICROSECOND_MAX then some (some u.toNat) else none :=
      rfl
    by_cases hu : MICROSECOND_MIN ≤ u ∧ u ≤ MICROSECOND_MAX
    · rw [huv, if_pos hu, opt_some_bind, opt_some_bind]
    · rw [huv, if_neg hu]
      rfl

/-- C6, witness: concrete inputs for the amended precision-priority
statement. -/
theorem C6_dts_precision_priority_witness :
    (packb (some "DTS") none none none none none none (some 1) (some 2) (some 3) =
       packb (some "DTS") none none none none none none none none (some 3))
  ∧ (packb (some "DTS") none none none none none none (some 1) (some 4) none =
       packb (some "DTS") none none none none none none none (some 4) none) :=
  C6_dts_precision_priority none none none none none none (some 1) (some 2) 3 4 rfl rfl

/-- Helper: on the DTS tag range the dispatcher's length is exactly the
`expectedLength` the decoder computes from the precision bits. -/
theorem tagLength_dts (first : Nat) (h1 : 0x40 ≤ first) (h2 : first ≤ 0x7f) :
    tagLength first =
      some (if first >>> 4 &&& 0x03 = 3 then 6 else 7 + (first >>> 4 &&& 0x03)) := by
  have hdiv : first >>> 4 = first / 16 := by
    rw [Nat.shiftRight_eq_div_pow]
  have h4 : first / 16 = 4 ∨ first / 16 = 5 ∨ first / 16 = 6 ∨ first / 16 = 7 := by
    omega
  rcases h4 with h | h | h | h
  · simp only [tagLength, hdiv, h]
    rw [if_neg (by omega : ¬ first ≤ 0b00111111),
      if_pos (by omega : first ≤ 0b01001111)]
    decide
  · simp only [tagLength, hdiv, h]
    rw [if_neg (by omega : ¬ first ≤ 0b00111111),
      if_neg (by omega : ¬ first ≤ 0b01001111),
      if_pos (by omega : first ≤ 0b01011111)]
    decide
  · simp only [tagLength, hdiv, h]
    rw [if_neg (by omega : ¬ first ≤ 0b00111111),
      if_neg (by omega : ¬ first ≤ 0b01001111),
      if_neg (by omega : ¬ first ≤ 0b01011111),
      if_pos (by omega : first ≤ 0b01101111)]
    decide
  · simp only [tagLength, hdiv, h]
    rw [if_neg (by omega : ¬ first ≤ 0b00111111),
      if_neg (by omega : ¬ first ≤ 0b01001111),
      if_neg (by omega : ¬ first ≤ 0b01011111),
      if_neg (by omega : ¬ first ≤ 0b01101111),
      if_pos (by omega : first ≤ 0b01111111)]
    decide

/-- C7, amended: for every buffer whose first byte carries one of the
implemented tags (DT, DTS, D, T — first byte at most `0xa1`), a length
different from the one the tag implies makes the decoder fail with the
length error (so it can only succeed at exactly the implied length);
in particular a valid 3-byte D encoding with a byte appended, or with
its last byte removed, fails with the length error. -/
theorem C7_exact_length (value : List Nat) (len : Nat)
    (himpl : value.headD 0 ≤ 0xa1)
    (hlen : tagLength (value.headD 0) = some len)
    (hne : value.length ≠ len) :
    unpackb value = .error .invalidLength
  ∧ packb (some "D") none none none none none none none none none = some [0x9f, 0xff, 0xff]
  ∧ unpackb ([0x9f, 0xff, 0xff] ++ [0xff]) = .error .invalidLength
  ∧ unpackb ([0x9f, 0xff, 0xff].dropLast) = .error .invalidLength := by
  refine ⟨?_, rfl, rfl, rfl⟩
  simp only [unpackb]
  by_cases h310 : 3 ≤ value.length ∧ value.length ≤ 10
  · rw [if_pos h310]
    by_cases hDT : value.headD 0 ≤ 0b00111111
    · have hl5 : len = 5 := by
        simp only [tagLength, if_pos hDT] at hlen
        exact (Option.some.inj hlen).symm
      rw [if_pos hDT, if_neg (hl5 ▸ hne)]
    · rw [if_neg hDT]
      by_cases hDTS : value.headD 0 ≤ 0b01111111
      · have hexp := tagLength_dts (value.headD 0) (by omega) hDTS
        rw [hlen] at hexp
        have hl : len = if value.headD 0 >>> 4 &&& 0x03 = 3 then 6
            else 7 + (value.headD 0 >>> 4 &&& 0x03) := Option.some.inj hexp
        rw [if_pos hDTS, if_neg (hl ▸ hne)]
      · rw [if_neg hDTS]
        by_cases hD : value.headD 0 ≤ 0b10011111
        · have hl3 : len = 3 := by
            simp only [tagLength] at hlen
            rw [if_neg hDT, if_neg (by omega : ¬ value.headD 0 ≤ 0b01001111),
              if_neg (by omega : ¬ value.headD 0 ≤ 0b01011111),
              if_neg (by omega : ¬ value.headD 0 ≤ 0b01101111),
              if_neg hDTS, if_pos hD] at hlen
            exact (Option.some.inj hlen).symm
          rw [if_pos hD, if_neg (hl3 ▸ hne)]
        · rw [if_neg hD]
          have hT : value.headD 0 ≤ 0b10100001 := himpl
          have hl3 : len = 3 := by
            simp only [tagLength] at hlen
            rw [if_neg hDT, if_neg (by omega : ¬ value.headD 0 ≤ 0b01001111),
              if_neg (by omega : ¬ value.headD 0 ≤ 0b01011111),
              if_neg (by omega : ¬ value.headD 0 ≤ 0b01101111),
              if_neg hDTS, if_neg hD, if_pos hT] at hlen
            exact (Option.some.inj hlen).symm
          rw [if_pos hT, if_neg (hl3 ▸ hne)]
  · rw [if_neg h310]

/-- C7, witness: a D-tagged buffer of length 4 (implied length 3) fails
with the length error. -/
theorem C7_exact_length_witness :
    unpackb [0x9f, 0xff, 0xff, 0xff] = .error .invalidLength
  ∧ packb (some "D") none none none none none none none none none = some [0x9f, 0xff, 0xff]
  ∧ unpackb ([0x9f, 0xff, 0xff] ++ [0xff]) = .error .invalidLength
  ∧ unpackb ([0x9f, 0xff, 0xff].dropLast) = .error .invalidLength :=
  C7_exact_length [0x9f, 0xff, 0xff, 0xff] 3 (by decide) rfl (by decide)

/-- C3: the stream reader (modelled from the spec, see `unpack`)
honours its contract: a successful read consults the tag dispatcher on
the byte at the cursor, decodes exactly the implied number of bytes
(all of which are available) and leaves the cursor just past them; an
exhausted source whose remaining bytes are fewer than the implied
length fails with the short-read error; and on two concatenated 3-byte
D values plus one trailing byte, two successive calls advance the
cursor by 3 bytes each and leave exactly the trailing byte unread. -/
theorem C3_stream_reader :
    (∀ data pos v pos2, unpack data pos = .ok (v, pos2) →
      ∃ total, tagLength ((data.drop pos).headD 0) = some total ∧
        pos2 = pos + total ∧
        pos + total ≤ data.length ∧
        unpackb ((data.drop pos).take total) = .ok v)
  ∧ (∀ data pos first restTail total, data.drop pos = first :: restTail →
      tagLength first = some total → restTail.length + 1 < total →
      unpack data pos = .error .shortRead)
  ∧ unpack [0x8f, 0x7e, 0x0e, 0x8f, 0x7e, 0x0f, 0xff] 0 =
      .ok (⟨some 1983, some 1, some 15, none, none, none,
            none, none, none, none, none, none⟩, 3)
  ∧ unpack [0x8f, 0x7e, 0x0e, 0x8f, 0x7e, 0x0f, 0xff] 3 =
      .ok (⟨some 1983, some 1, some 16, none, none, none,
            none, none, none, none, none, none⟩, 6)
  ∧ List.drop 6 [0x8f, 0x7e, 0x0e, 0x8f, 0x7e, 0x0f, 0xff] = [0xff] := by
  refine ⟨?_, ?_, rfl, rfl, rfl⟩
  · intro data pos v pos2 h
    cases hrest : data.drop pos with
    | nil =>
        simp only [unpack, hrest] at h
        exact Except.noConfusion h
    | cons first rest =>
        cases htag : tagLength first with
        | none =>
            simp only [unpack, hrest, htag] at h
            exact Except.noConfusion h
        | some total =>
            simp only [unpack, hrest, htag] at h
            by_cases hsh : (first :: rest).length < total
            · rw [if_pos hsh] at h
              exact Except.noConfusion h
            · rw [if_neg hsh] at h
              cases hdec : unpackb ((first :: rest).take total) with
              | error e =>
                  simp only [hdec] at h
                  exact Except.noConfusion h
              | ok v0 =>
                  simp only [hdec] at h
                  injection h with h
                  injection h with ha hb
                  refine ⟨total, ?_, hb.symm, ?_, ?_⟩
                  · exact htag
                  · have hlen2 : data.length - pos = (first :: rest).length := by
                      rw [← List.length_drop, hrest]
                    simp only [List.length_cons] at hlen2 hsh
                    omega
                  · rw [hdec, ha]
  · intro data pos first restTail total hrest htag hlt
    have hc : (first :: restTail).length < total := by
      simpa using hlt
    simp only [unpack, hrest, htag]
    rw [if_pos hc]

end Temporenc
